import Mathlib

/-
Verification of the delegated-authorization engine of `src/solana-program`.

The repository source (`src/solana-program/src/lib.rs`) declares the data
model: the `DelegationState` account structure and the `DelegationInstruction`
enum.  The engine that applies those instructions (the Delegation Authority
state machine and the Entry Dispatcher of spec §4.4/§4.5) is not present under
`src/`, so its behaviour is modelled from the specification, as marked on each
such definition.
-/

/-- `Pubkey` from the Solana SDK, used by `src/solana-program/src/lib.rs` as an
opaque identity (a 32-byte public key).  Modelled abstractly as a natural
number; the engine only ever compares identities for equality and tests set
membership, never inspects their bytes. -/
abbrev Pubkey := Nat

/-- `DelegationState` from `src/solana-program/src/lib.rs` lines 2-9: the
persisted delegation record.  `expiry_timestamp: i64` is modelled as `Int`,
`max_allowed_amount: u64` and `permissions: u32` as `Nat` (the engine only
compares them and tests bits, so no wrapping arithmetic arises; the u32 width
of `permissions` enters as an explicit `< 2 ^ 32` bound where it matters). -/
structure DelegationState where
  initialized : Bool
  owner : Pubkey
  delegate : Pubkey
  expiry_timestamp : Int
  max_allowed_amount : Nat
  permissions : Nat
  deriving DecidableEq, Repr

/-- `DelegationInstruction` from `src/solana-program/src/lib.rs` lines 12-19:
the three operations the program handles. -/
inductive DelegationInstruction where
  | Create (expiry_timestamp : Int) (max_amount : Nat) (permissions : Nat)
  | Revoke
  | VerifyTransaction (amount : Nat) (operation_type : Nat)
  deriving DecidableEq, Repr

/-- Modelled from the spec: the error taxonomy of §7 (the state, binding and
verification errors reachable in this model; decoding errors concern the wire
format, which no claim touches). -/
inductive DelegationError where
  | MissingSignature
  | AlreadyInitialized
  | NotInitialized
  | InvalidParameters
  | Expired
  | AmountExceeded
  | PermissionDenied
  deriving DecidableEq, Repr

/-- Modelled from the spec: `require_signer` (§4.2), absent from `src/`.
Fails with `MissingSignature` if the claimed identity is not in the set of
identities the host has cryptographically verified; the engine itself only
checks membership. -/
def require_signer (claimed : Pubkey) (signers : List Pubkey) :
    Except DelegationError Unit :=
  if claimed ∈ signers then Except.ok () else Except.error DelegationError.MissingSignature

/-- The all-zero, uninitialized record: what `Revoke` leaves behind per §4.4
("clears all fields to their zero value and sets `initialized=false`"). -/
def DelegationState.cleared : DelegationState :=
  ⟨false, 0, 0, 0, 0, 0⟩

/-- Modelled from the spec: the Delegation Authority state machine (§4.4),
absent from `src/`.  Signer checks are the Entry Dispatcher's job (§4.5) and
are factored out into `process`.
* `Create`: fails `AlreadyInitialized` on an active record; fails
  `InvalidParameters` unless `expiry_timestamp` is strictly in the future,
  `max_amount ≠ 0` and `permissions ≠ 0`; otherwise writes the new record.
* `Revoke`: fails `NotInitialized` on an uninitialized record; otherwise
  clears every field to zero.
* `VerifyTransaction`: checks in order `NotInitialized`, `Expired`
  (`current_time ≥ expiry_timestamp`), `AmountExceeded`
  (`amount > max_allowed_amount`), `PermissionDenied`
  (`permissions &&& (1 <<< operation_type) = 0`, no wrap of the shift).
  On success the record is returned unchanged. -/
def authorityApply (record : DelegationState) (current_time : Int)
    (acting_owner acting_delegate : Pubkey) :
    DelegationInstruction → Except DelegationError DelegationState
  | DelegationInstruction.Create e m p =>
      if record.initialized then Except.error DelegationError.AlreadyInitialized
      else if e ≤ current_time ∨ m = 0 ∨ p = 0 then
        Except.error DelegationError.InvalidParameters
      else Except.ok ⟨true, acting_owner, acting_delegate, e, m, p⟩
  | DelegationInstruction.Revoke =>
      if record.initialized then Except.ok DelegationState.cleared
      else Except.error DelegationError.NotInitialized
  | DelegationInstruction.VerifyTransaction amount op =>
      if record.initialized then
        if record.expiry_timestamp ≤ current_time then
          Except.error DelegationError.Expired
        else if record.max_allowed_amount < amount then
          Except.error DelegationError.AmountExceeded
        else if record.permissions &&& (1 <<< op) = 0 then
          Except.error DelegationError.PermissionDenied
        else Except.ok record
      else Except.error DelegationError.NotInitialized

/-- Modelled from the spec: the Entry Dispatcher (§4.5), absent from `src/`.
It performs the signer check applicable to the operation — owner-signer for
`Create` (the owner presented by the host accounts, to be written into the new
record) and `Revoke` (the record's owner), delegate-signer for
`VerifyTransaction` (the record's delegate) — and then applies the Delegation
Authority. -/
def process (record : DelegationState) (acting_owner acting_delegate : Pubkey)
    (signers : List Pubkey) (current_time : Int) (instr : DelegationInstruction) :
    Except DelegationError DelegationState :=
  match require_signer
      (match instr with
        | DelegationInstruction.Create _ _ _ => acting_owner
        | DelegationInstruction.Revoke => record.owner
        | DelegationInstruction.VerifyTransaction _ _ => record.delegate) signers with
  | Except.error e => Except.error e
  | Except.ok _ => authorityApply record current_time acting_owner acting_delegate instr

/-- Modelled from the spec: the host's atomic commit (§4.5, §7) — the updated
record is written back on success, and all writes are discarded on any
failure. -/
def committedRecord (record : DelegationState)
    (res : Except DelegationError DelegationState) : DelegationState :=
  match res with
  | Except.ok r => r
  | Except.error _ => record

/-! ### Helper lemmas -/

/-- The permission test `permissions &&& (1 <<< op) = 0` is equivalent to bit
`op` of `permissions` being clear; the `Nat` shift does not wrap. -/
theorem and_shift_eq_zero_iff (p op : Nat) :
    p &&& (1 <<< op) = 0 ↔ p.testBit op = false := by
  rw [Nat.one_shiftLeft, Nat.and_two_pow]
  cases h : p.testBit op <;> simp

/-- With the acting owner in the signer set, `process` on `Create` reduces to
the Authority. -/
theorem process_create_signed (r : DelegationState) (ao ad : Pubkey)
    (signers : List Pubkey) (t e : Int) (m p : Nat) (hsig : ao ∈ signers) :
    process r ao ad signers t (DelegationInstruction.Create e m p)
      = authorityApply r t ao ad (DelegationInstruction.Create e m p) := by
  unfold process require_signer
  simp [hsig]

/-- With the record's owner in the signer set, `process` on `Revoke` reduces to
the Authority. -/
theorem process_revoke_signed (r : DelegationState) (ao ad : Pubkey)
    (signers : List Pubkey) (t : Int) (hsig : r.owner ∈ signers) :
    process r ao ad signers t DelegationInstruction.Revoke
      = authorityApply r t ao ad DelegationInstruction.Revoke := by
  unfold process require_signer
  simp [hsig]

/-- With the record's delegate in the signer set, `process` on
`VerifyTransaction` reduces to the Authority. -/
theorem process_verify_signed (r : DelegationState) (ao ad : Pubkey)
    (signers : List Pubkey) (t : Int) (a op : Nat) (hsig : r.delegate ∈ signers) :
    process r ao ad signers t (DelegationInstruction.VerifyTransaction a op)
      = authorityApply r t ao ad (DelegationInstruction.VerifyTransaction a op) := by
  unfold process require_signer
  simp [hsig]

/-- With the acting owner absent from the signer set, `Create` fails with
`MissingSignature`. -/
theorem process_create_unsigned (r : DelegationState) (ao ad : Pubkey)
    (signers : List Pubkey) (t e : Int) (m p : Nat) (hsig : ao ∉ signers) :
    process r ao ad signers t (DelegationInstruction.Create e m p)
      = Except.error DelegationError.MissingSignature := by
  unfold process require_signer
  simp [hsig]

/-- With the record's owner absent from the signer set, `Revoke` fails with
`MissingSignature`. -/
theorem process_revoke_unsigned (r : DelegationState) (ao ad : Pubkey)
    (signers : List Pubkey) (t : Int) (hsig : r.owner ∉ signers) :
    process r ao ad signers t DelegationInstruction.Revoke
      = Except.error DelegationError.MissingSignature := by
  unfold process require_signer
  simp [hsig]

/-- With the record's delegate absent from the signer set, `VerifyTransaction`
fails with `MissingSignature`. -/
theorem process_verify_unsigned (r : DelegationState) (ao ad : Pubkey)
    (signers : List Pubkey) (t : Int) (a op : Nat) (hsig : r.delegate ∉ signers) :
    process r ao ad signers t (DelegationInstruction.VerifyTransaction a op)
      = Except.error DelegationError.MissingSignature := by
  unfold process require_signer
  simp [hsig]

/-- On an active record with the delegate signed, `VerifyTransaction` reduces
to the three-way check chain expiry / amount / permission bit. -/
theorem process_verify_eq (r : DelegationState) (ao ad : Pubkey)
    (signers : List Pubkey) (t : Int) (amount op : Nat)
    (hact : r.initialized = true) (hsig : r.delegate ∈ signers) :
    process r ao ad signers t (DelegationInstruction.VerifyTransaction amount op)
      = if r.expiry_timestamp ≤ t then Except.error DelegationError.Expired
        else if r.max_allowed_amount < amount then
          Except.error DelegationError.AmountExceeded
        else if r.permissions.testBit op then Except.ok r
        else Except.error DelegationError.PermissionDenied := by
  rw [process_verify_signed r ao ad signers t amount op hsig]
  by_cases h1 : r.expiry_timestamp ≤ t
  · simp [authorityApply, hact, h1]
  · by_cases h2 : r.max_allowed_amount < amount
    · simp [authorityApply, hact, h1, h2]
    · cases hb : r.permissions.testBit op
      · simp [authorityApply, hact, h1, h2, (and_shift_eq_zero_iff _ _).mpr hb, hb]
      · have hnz : ¬ r.permissions &&& (1 <<< op) = 0 := by
          rw [and_shift_eq_zero_iff, hb]; simp
        simp [authorityApply, hact, h1, h2, hnz, hb]

/-- A successful `VerifyTransaction` returns the input record unchanged. -/
theorem verify_ok_eq (r : DelegationState) (ao ad : Pubkey)
    (signers : List Pubkey) (t : Int) (a op : Nat) (r2 : DelegationState)
    (h : process r ao ad signers t (DelegationInstruction.VerifyTransaction a op)
      = Except.ok r2) : r2 = r := by
  by_cases hsig : r.delegate ∈ signers
  · by_cases hi : r.initialized = true
    · rw [process_verify_eq r ao ad signers t a op hi hsig] at h
      by_cases h1 : r.expiry_timestamp ≤ t
      · rw [if_pos h1] at h; simp at h
      · rw [if_neg h1] at h
        by_cases h2 : r.max_allowed_amount < a
        · rw [if_pos h2] at h; simp at h
        · rw [if_neg h2] at h
          cases hb : r.permissions.testBit op
          · rw [if_neg] at h
            · simp at h
            · simp [hb]
          · rw [if_pos hb] at h
            exact (Except.ok.inj h).symm
    · rw [process_verify_signed r ao ad signers t a op hsig] at h
      simp [authorityApply, hi] at h
  · rw [process_verify_unsigned r ao ad signers t a op hsig] at h
    simp at h

/-! ### Claims -/

/-- C1: for every Active record and signed-delegate `VerifyTransaction` that
passes the expiry and amount checks, verification succeeds iff bit
`operation_type` is set in the record's 32-bit `permissions` bitmap, and every
`operation_type ≥ 32` fails with `PermissionDenied` (the shift does not wrap
modulo 32). -/
theorem verify_permission_exactness
    (r : DelegationState) (ao ad : Pubkey) (signers : List Pubkey) (t : Int)
    (amount op : Nat)
    (hact : r.initialized = true)
    (hw : r.permissions < 2 ^ 32)
    (hsig : r.delegate ∈ signers)
    (hexp : t < r.expiry_timestamp)
    (hamt : amount ≤ r.max_allowed_amount) :
    (process r ao ad signers t (DelegationInstruction.VerifyTransaction amount op)
        = Except.ok r ↔ r.permissions.testBit op = true)
    ∧ (32 ≤ op →
        process r ao ad signers t (DelegationInstruction.VerifyTransaction amount op)
          = Except.error DelegationError.PermissionDenied) := by
  rw [process_verify_eq r ao ad signers t amount op hact hsig,
    if_neg (not_le.mpr hexp), if_neg (not_lt.mpr hamt)]
  constructor
  · cases hb : r.permissions.testBit op <;> simp [hb]
  · intro hop
    have hb : r.permissions.testBit op = false :=
      Nat.testBit_eq_false_of_lt
        (lt_of_lt_of_le hw (Nat.pow_le_pow_right (by decide) hop))
    simp [hb]

/-- Witness for C1 at a concrete active record. -/
theorem verify_permission_exactness_witness :
    (process ⟨true, 1, 2, 100, 500, 3⟩ 1 2 [2] 50
        (DelegationInstruction.VerifyTransaction 500 0)
        = Except.ok ⟨true, 1, 2, 100, 500, 3⟩ ↔ Nat.testBit 3 0 = true)
    ∧ (32 ≤ 0 →
        process ⟨true, 1, 2, 100, 500, 3⟩ 1 2 [2] 50
          (DelegationInstruction.VerifyTransaction 500 0)
          = Except.error DelegationError.PermissionDenied) :=
  verify_permission_exactness ⟨true, 1, 2, 100, 500, 3⟩ 1 2 [2] 50 500 0
    rfl (by decide) (by decide) (by decide) (by decide)

/-- C2: for every Active record with the delegate signed, `VerifyTransaction`
fails with `Expired` exactly when `current_time ≥ expiry_timestamp`; at
`current_time = expiry_timestamp - 1` the expiry check passes (and
verification succeeds when the other checks pass), and at
`current_time = expiry_timestamp` it fails with `Expired`. -/
theorem verify_expiry_boundary
    (r : DelegationState) (ao ad : Pubkey) (signers : List Pubkey) (t : Int)
    (amount op : Nat)
    (hact : r.initialized = true) (hsig : r.delegate ∈ signers) :
    (process r ao ad signers t (DelegationInstruction.VerifyTransaction amount op)
        = Except.error DelegationError.Expired ↔ r.expiry_timestamp ≤ t)
    ∧ (amount ≤ r.max_allowed_amount → r.permissions.testBit op = true →
        process r ao ad signers (r.expiry_timestamp - 1)
          (DelegationInstruction.VerifyTransaction amount op) = Except.ok r)
    ∧ process r ao ad signers r.expiry_timestamp
        (DelegationInstruction.VerifyTransaction amount op)
        = Except.error DelegationError.Expired := by
  refine ⟨?_, fun hamt hb => ?_, ?_⟩
  · rw [process_verify_eq r ao ad signers t amount op hact hsig]
    by_cases hexp : r.expiry_timestamp ≤ t
    · simp [hexp]
    · rw [if_neg hexp]
      constructor
      · intro h
        by_cases h2 : r.max_allowed_amount < amount
        · rw [if_pos h2] at h; simp at h
        · rw [if_neg h2] at h
          cases hb : r.permissions.testBit op
          · rw [if_neg] at h
            · simp at h
            · simp [hb]
          · rw [if_pos hb] at h; simp at h
      · intro h; exact absurd h hexp
  · rw [process_verify_eq r ao ad signers (r.expiry_timestamp - 1) amount op hact hsig,
      if_neg (not_le.mpr (sub_one_lt _)), if_neg (not_lt.mpr hamt), if_pos hb]
  · rw [process_verify_eq r ao ad signers r.expiry_timestamp amount op hact hsig,
      if_pos le_rfl]

/-- Witness for C2 at a concrete active record. -/
theorem verify_expiry_boundary_witness :
    (process ⟨true, 1, 2, 100, 500, 3⟩ 1 2 [2] 100
        (DelegationInstruction.VerifyTransaction 10 0)
        = Except.error DelegationError.Expired ↔ (100 : Int) ≤ 100)
    ∧ ((10 : Nat) ≤ 500 → Nat.testBit 3 0 = true →
        process ⟨true, 1, 2, 100, 500, 3⟩ 1 2 [2] (100 - 1)
          (DelegationInstruction.VerifyTransaction 10 0)
          = Except.ok ⟨true, 1, 2, 100, 500, 3⟩)
    ∧ process ⟨true, 1, 2, 100, 500, 3⟩ 1 2 [2] 100
        (DelegationInstruction.VerifyTransaction 10 0)
        = Except.error DelegationError.Expired :=
  verify_expiry_boundary ⟨true, 1, 2, 100, 500, 3⟩ 1 2 [2] 100 10 0
    rfl (by decide)

/-- C3: for every Active, unexpired record with the delegate signed, the
amount ceiling is inclusive: it fails with `AmountExceeded` exactly when
`amount > max_allowed_amount`, and `amount = max_allowed_amount` passes the
amount check (succeeding when the permission check passes too). -/
theorem verify_amount_ceiling
    (r : DelegationState) (ao ad : Pubkey) (signers : List Pubkey) (t : Int)
    (amount op : Nat)
    (hact : r.initialized = true) (hsig : r.delegate ∈ signers)
    (hexp : t < r.expiry_timestamp) :
    (process r ao ad signers t (DelegationInstruction.VerifyTransaction amount op)
        = Except.error DelegationError.AmountExceeded
      ↔ r.max_allowed_amount < amount)
    ∧ (amount = r.max_allowed_amount → r.permissions.testBit op = true →
        process r ao ad signers t (DelegationInstruction.VerifyTransaction amount op)
          = Except.ok r) := by
  refine ⟨?_, fun heq hb => ?_⟩
  · rw [process_verify_eq r ao ad signers t amount op hact hsig,
      if_neg (not_le.mpr hexp)]
    by_cases h2 : r.max_allowed_amount < amount
    · simp [h2]
    · rw [if_neg h2]
      constructor
      · intro h
        cases hb : r.permissions.testBit op
        · rw [if_neg] at h
          · simp at h
          · simp [hb]
        · rw [if_pos hb] at h; simp at h
      · intro h; exact absurd h h2
  · rw [process_verify_eq r ao ad signers t amount op hact hsig,
      if_neg (not_le.mpr hexp), if_neg (not_lt.mpr (le_of_eq heq)), if_pos hb]

/-- Witness for C3 at a concrete active record. -/
theorem verify_amount_ceiling_witness :
    (process ⟨true, 1, 2, 100, 500, 3⟩ 1 2 [2] 50
        (DelegationInstruction.VerifyTransaction 501 1)
        = Except.error DelegationError.AmountExceeded ↔ (500 : Nat) < 501)
    ∧ ((501 : Nat) = 500 → Nat.testBit 3 1 = true →
        process ⟨true, 1, 2, 100, 500, 3⟩ 1 2 [2] 50
          (DelegationInstruction.VerifyTransaction 501 1)
          = Except.ok ⟨true, 1, 2, 100, 500, 3⟩) :=
  verify_amount_ceiling ⟨true, 1, 2, 100, 500, 3⟩ 1 2 [2] 50 501 1
    rfl (by decide) (by decide)

/-- C4: `Create` on an Active (initialized) record always fails with
`AlreadyInitialized`, and `Revoke` or `VerifyTransaction` on an Uninitialized
record always fails with `NotInitialized`, regardless of the other operation
parameters (stated of the Delegation Authority, whose state checks these are;
the dispatcher's signer check precedes it). -/
theorem state_precondition_errors
    (r : DelegationState) (t : Int) (ao ad : Pubkey) (e : Int) (m p a op : Nat) :
    (r.initialized = true →
      authorityApply r t ao ad (DelegationInstruction.Create e m p)
        = Except.error DelegationError.AlreadyInitialized)
    ∧ (r.initialized = false →
        authorityApply r t ao ad DelegationInstruction.Revoke
          = Except.error DelegationError.NotInitialized
        ∧ authorityApply r t ao ad (DelegationInstruction.VerifyTransaction a op)
          = Except.error DelegationError.NotInitialized) := by
  refine ⟨fun h => ?_, fun h => ⟨?_, ?_⟩⟩ <;> simp [authorityApply, h]

/-- Witness for C4 at concrete records: `Create` on an active record, and
`Revoke` and `VerifyTransaction` on the cleared record. -/
theorem state_precondition_errors_witness :
    (authorityApply ⟨true, 1, 2, 100, 500, 3⟩ 50 1 2
        (DelegationInstruction.Create 200 9 1)
      = Except.error DelegationError.AlreadyInitialized)
    ∧ (authorityApply DelegationState.cleared 50 1 2 DelegationInstruction.Revoke
        = Except.error DelegationError.NotInitialized
      ∧ authorityApply DelegationState.cleared 50 1 2
          (DelegationInstruction.VerifyTransaction 7 0)
        = Except.error DelegationError.NotInitialized) :=
  ⟨(state_precondition_errors ⟨true, 1, 2, 100, 500, 3⟩ 50 1 2 200 9 1 7 0).1 rfl,
    (state_precondition_errors DelegationState.cleared 50 1 2 200 9 1 7 0).2 rfl⟩

/-- C5: for every Uninitialized record and owner-signed `Create`, the
operation fails with `InvalidParameters` when `expiry_timestamp` is not
strictly in the future, or `max_amount = 0`, or `permissions = 0`; otherwise
it succeeds and the resulting record is active with exactly the given
fields. -/
theorem create_validation
    (r : DelegationState) (ao ad : Pubkey) (signers : List Pubkey) (t e : Int)
    (m p : Nat)
    (hun : r.initialized = false) (hsig : ao ∈ signers) :
    ((e ≤ t ∨ m = 0 ∨ p = 0) →
      process r ao ad signers t (DelegationInstruction.Create e m p)
        = Except.error DelegationError.InvalidParameters)
    ∧ (t < e → m ≠ 0 → p ≠ 0 →
      process r ao ad signers t (DelegationInstruction.Create e m p)
        = Except.ok ⟨true, ao, ad, e, m, p⟩) := by
  rw [process_create_signed r ao ad signers t e m p hsig]
  refine ⟨fun h => ?_, fun h1 h2 h3 => ?_⟩
  · simp [authorityApply, hun, h]
  · have hv : ¬ (e ≤ t ∨ m = 0 ∨ p = 0) := by
      push_neg
      exact ⟨h1, h2, h3⟩
    simp [authorityApply, hun, hv]

/-- Witness for C5 at a concrete uninitialized record. -/
theorem create_validation_witness :
    (((0 : Int) ≤ 50 ∨ (500 : Nat) = 0 ∨ (3 : Nat) = 0) →
      process DelegationState.cleared 1 2 [1] 50
          (DelegationInstruction.Create 0 500 3)
        = Except.error DelegationError.InvalidParameters)
    ∧ ((50 : Int) < 0 → (500 : Nat) ≠ 0 → (3 : Nat) ≠ 0 →
      process DelegationState.cleared 1 2 [1] 50
          (DelegationInstruction.Create 0 500 3)
        = Except.ok ⟨true, 1, 2, 0, 500, 3⟩) :=
  create_validation DelegationState.cleared 1 2 [1] 50 0 500 3 rfl (by decide)

/-- C6: `Create` and `Revoke` succeed only with the owner identity in the
verified signer set and `VerifyTransaction` only with the delegate identity
in it; when the required identity is absent the operation fails with
`MissingSignature`. -/
theorem signer_requirements
    (r : DelegationState) (ao ad : Pubkey) (signers : List Pubkey) (t e : Int)
    (m p a op : Nat) :
    (ao ∉ signers →
      process r ao ad signers t (DelegationInstruction.Create e m p)
        = Except.error DelegationError.MissingSignature)
    ∧ (r.owner ∉ signers →
        process r ao ad signers t DelegationInstruction.Revoke
          = Except.error DelegationError.MissingSignature)
    ∧ (r.delegate ∉ signers →
        process r ao ad signers t (DelegationInstruction.VerifyTransaction a op)
          = Except.error DelegationError.MissingSignature)
    ∧ (∀ r2, process r ao ad signers t (DelegationInstruction.Create e m p)
          = Except.ok r2 → r2.owner ∈ signers)
    ∧ (∀ r2, process r ao ad signers t DelegationInstruction.Revoke
          = Except.ok r2 → r.owner ∈ signers)
    ∧ (∀ r2, process r ao ad signers t (DelegationInstruction.VerifyTransaction a op)
          = Except.ok r2 → r.delegate ∈ signers) := by
  refine ⟨fun h => process_create_unsigned r ao ad signers t e m p h,
    fun h => process_revoke_unsigned r ao ad signers t h,
    fun h => process_verify_unsigned r ao ad signers t a op h,
    fun r2 h2 => ?_, fun r2 h2 => ?_, fun r2 h2 => ?_⟩
  · by_cases hs : ao ∈ signers
    · rw [process_create_signed r ao ad signers t e m p hs] at h2
      simp only [authorityApply] at h2
      by_cases hi : r.initialized = true
      · rw [if_pos hi] at h2; simp at h2
      · rw [if_neg hi] at h2
        by_cases hv : e ≤ t ∨ m = 0 ∨ p = 0
        · rw [if_pos hv] at h2; simp at h2
        · rw [if_neg hv] at h2
          have := Except.ok.inj h2
          rw [← this]
          exact hs
    · rw [process_create_unsigned r ao ad signers t e m p hs] at h2
      simp at h2
  · by_cases hs : r.owner ∈ signers
    · exact hs
    · rw [process_revoke_unsigned r ao ad signers t hs] at h2
      simp at h2
  · by_cases hs : r.delegate ∈ signers
    · exact hs
    · rw [process_verify_unsigned r ao ad signers t a op hs] at h2
      simp at h2

/-- Witness for C6: with only the delegate (key 2) signed, the delegate of an
active record owned by key 1 cannot revoke — `Revoke` fails with
`MissingSignature`. -/
theorem signer_requirements_witness :
    process ⟨true, 1, 2, 100, 500, 3⟩ 1 2 [2] 50 DelegationInstruction.Revoke
      = Except.error DelegationError.MissingSignature :=
  (signer_requirements ⟨true, 1, 2, 100, 500, 3⟩ 1 2 [2] 50 200 9 1 7 0).2.1
    (by decide)

/-- C7: a successful owner-signed `Revoke` of an Active record produces the
all-zero uninitialized record. -/
theorem revoke_clears_record
    (r : DelegationState) (ao ad : Pubkey) (signers : List Pubkey) (t : Int)
    (hact : r.initialized = true) (hsig : r.owner ∈ signers) :
    process r ao ad signers t DelegationInstruction.Revoke
      = Except.ok DelegationState.cleared := by
  rw [process_revoke_signed r ao ad signers t hsig]
  simp [authorityApply, hact]

/-- Witness for C7 at a concrete active record. -/
theorem revoke_clears_record_witness :
    process ⟨true, 1, 2, 100, 500, 3⟩ 1 2 [1] 50 DelegationInstruction.Revoke
      = Except.ok DelegationState.cleared :=
  revoke_clears_record ⟨true, 1, 2, 100, 500, 3⟩ 1 2 [1] 50 rfl (by decide)

/-- C8: `VerifyTransaction` never changes the record — whether it succeeds or
fails, the committed record equals the record before the invocation, so
`max_allowed_amount` is never consumed or decremented. -/
theorem verify_is_read_only
    (r : DelegationState) (ao ad : Pubkey) (signers : List Pubkey) (t : Int)
    (a op : Nat) :
    committedRecord r
        (process r ao ad signers t (DelegationInstruction.VerifyTransaction a op))
      = r := by
  cases hres : process r ao ad signers t (DelegationInstruction.VerifyTransaction a op)
  case error e => rfl
  case ok r2 =>
    simpa [committedRecord] using verify_ok_eq r ao ad signers t a op r2 hres

/-- C9: every error leaves the Delegation Record exactly as it was — the
committed record after a failed invocation of any operation equals the record
before it. -/
theorem error_leaves_record_unchanged
    (r : DelegationState) (ao ad : Pubkey) (signers : List Pubkey) (t : Int)
    (instr : DelegationInstruction) (err : DelegationError)
    (h : process r ao ad signers t instr = Except.error err) :
    committedRecord r (process r ao ad signers t instr) = r := by
  rw [h]
  rfl

/-- Witness for C9: a failing `Revoke` (no signature) commits no change. -/
theorem error_leaves_record_unchanged_witness :
    committedRecord DelegationState.cleared
        (process DelegationState.cleared 1 2 [] 0 DelegationInstruction.Revoke)
      = DelegationState.cleared :=
  error_leaves_record_unchanged DelegationState.cleared 1 2 [] 0
    DelegationInstruction.Revoke DelegationError.MissingSignature rfl

/-- C10: the engine provides no replay protection — a `VerifyTransaction`
that succeeds leaves the record unchanged, so repeating the identical
invocation on the post-state succeeds with the same grant. -/
theorem verify_replay_succeeds
    (r : DelegationState) (ao ad : Pubkey) (signers : List Pubkey) (t : Int)
    (a op : Nat) (r2 : DelegationState)
    (h : process r ao ad signers t (DelegationInstruction.VerifyTransaction a op)
      = Except.ok r2) :
    process r2 ao ad signers t (DelegationInstruction.VerifyTransaction a op)
      = Except.ok r2 := by
  have he := verify_ok_eq r ao ad signers t a op r2 h
  rw [he]
  rw [he] at h
  exact h

/-- Witness for C10 at a concrete successful verification. -/
theorem verify_replay_succeeds_witness :
    process ⟨true, 1, 2, 100, 500, 3⟩ 1 2 [2] 50
        (DelegationInstruction.VerifyTransaction 500 0)
      = Except.ok ⟨true, 1, 2, 100, 500, 3⟩ :=
  verify_replay_succeeds ⟨true, 1, 2, 100, 500, 3⟩ 1 2 [2] 50 500 0
    ⟨true, 1, 2, 100, 500, 3⟩ rfl
